import Mathlib

/-
Verification development for the web-audit screenshot server (src/server.js).
The server is an Express application with two upload endpoints (multipart and
base64), a static file route for retrieval, an error-handling middleware and
a JSON 404 fallback.  The definitions below are a shallow embedding of that
code: byte strings are lists of naturals, the filesystem is an association
list from absolute path segments to byte strings, and each route handler is a
pure function from request data and filesystem to a response and a new
filesystem.
-/

namespace WebAudit

/-- Byte strings: each entry is one byte value. -/
abbrev Bytes := List Nat

/-- Absolute filesystem paths as lists of segments. -/
abbrev FsPath := List String

/-- The directory of server.js (the value of __dirname), modelled as a fixed
absolute directory. -/
def dirnameSegs : FsPath := [("srv"), ("app")]

/-- uploadsDir = path.join(__dirname, 'uploads')  (server.js line 16). -/
def uploadsDir : FsPath := dirnameSegs ++ [("uploads")]

/-- Accumulating splitter over characters: cut a new segment at every '/'. -/
def splitSegsAux : List Char → List Char → List String
  | [], acc => [String.mk acc.reverse]
  | c :: cs, acc =>
    if c = ('/') then String.mk acc.reverse :: splitSegsAux cs []
    else splitSegsAux cs (c :: acc)

/-- Split a relative path string on '/' separators, as Node's path handling
and the URL router see it. -/
def splitPath (s : String) : List String := splitSegsAux s.toList []

/-- Resolve path segments against a base directory the way Node's
path.join normalizes: empty and '.' segments vanish, '..' pops the last
segment of the accumulated path. -/
def resolveSegs : FsPath → List String → FsPath
  | acc, [] => acc
  | acc, s :: rest =>
    if s = ("") ∨ s = (".") then resolveSegs acc rest
    else if s = ("..") then resolveSegs acc.dropLast rest
    else resolveSegs (acc ++ [s]) rest

/-- path.join(base, rel) for a base given as absolute segments. -/
def pathJoin (base : FsPath) (rel : String) : FsPath :=
  resolveSegs base (splitPath rel)

/-- The filesystem: an association list, most recent write first. -/
abbrev FileSystem := List (FsPath × Bytes)

/-- fs.writeFileSync: (over)write a file at a path. -/
def fsWrite (fs : FileSystem) (p : FsPath) (b : Bytes) : FileSystem :=
  (p, b) :: fs

/-- Read the bytes of a file, if present. -/
def fsRead : FileSystem → FsPath → Option Bytes
  | [], _ => none
  | (q, b) :: rest, p => if q = p then some b else fsRead rest p

/-- Value of a character in the base64 alphabet, as Node's lenient decoder
accepts it (standard alphabet plus the URL-safe variants '-' and '_');
none for every other character. -/
def b64Val (c : Char) : Option Nat :=
  if ('A') ≤ c ∧ c ≤ ('Z') then some (c.toNat - 65)
  else if ('a') ≤ c ∧ c ≤ ('z') then some (c.toNat - 97 + 26)
  else if ('0') ≤ c ∧ c ≤ ('9') then some (c.toNat - 48 + 52)
  else if c = ('+') ∨ c = ('-') then some 62
  else if c = ('/') ∨ c = ('_') then some 63
  else none

/-- Decode a run of 6-bit values into bytes: each full group of four values
yields three bytes, a trailing pair yields one byte and a trailing triple
yields two bytes, exactly as Node's incremental base64 decoder emits them. -/
def decodeQuartets : List Nat → Bytes
  | a :: b :: c :: d :: rest =>
    (a * 4 + b / 16) :: ((b % 16) * 16 + c / 4) :: ((c % 4) * 64 + d) ::
      decodeQuartets rest
  | [a, b] => [a * 4 + b / 16]
  | [a, b, c] => [a * 4 + b / 16, (b % 16) * 16 + c / 4]
  | _ => []

/-- Node's Buffer base64 decoding as used by fs.writeFileSync(path, data,
'base64'): it never fails, it skips characters outside the alphabet, and it
stops at the first '=' padding character. -/
def base64Decode (s : String) : Bytes :=
  decodeQuartets (List.filterMap b64Val (s.toList.takeWhile (fun c => c != ('='))))

/-- Drop an expected literal character sequence from the front of a list,
failing when the input does not start with it. -/
def dropLiteral : List Char → List Char → Option (List Char)
  | [], cs => some cs
  | _ :: _, [] => none
  | l :: ls, c :: cs => if c = l then dropLiteral ls cs else none

/-- Lower-case ASCII letter test, the character class of the data-URL regex. -/
def isLowerAlpha (c : Char) : Bool := decide (('a') ≤ c ∧ c ≤ ('z'))

/-- Match the anchored regex  data:image\/[a-z]+;base64,  at the front of a
character list, returning the remainder on success. -/
def matchDataUrl (cs : List Char) : Option (List Char) :=
  match dropLiteral (("data:image/").toList) cs with
  | none => none
  | some rest =>
    let typ := rest.takeWhile isLowerAlpha
    if typ.length = 0 then none
    else dropLiteral ((";base64,").toList) (rest.drop typ.length)

/-- image.replace(data-url-regex, '')  (server.js line 141): remove one
leading data-URL header when present, keep the string unchanged otherwise. -/
def stripDataUrl (s : String) : String :=
  match matchDataUrl s.toList with
  | some rest => String.mk rest
  | none => s

/-- HTTP methods, at the granularity the middleware chain in server.js
distinguishes: the cors middleware answers OPTIONS by itself, the Express
router serves HEAD requests through GET routes, the routes themselves are
GET or POST, and every other method can only reach the 404 fallback. -/
inductive Method
  | GET
  | POST
  | HEAD
  | OPTIONS
  | OTHER
deriving DecidableEq

/-- Express routes HEAD requests through the handlers registered with
app.get; every other method matches as itself. -/
def effMethod : Method → Method
  | Method.HEAD => Method.GET
  | m => m

/-- Value of a hexadecimal digit, upper or lower case, as decodeURIComponent
accepts escape digits. -/
def hexVal (c : Char) : Option Nat :=
  if ('0') ≤ c ∧ c ≤ ('9') then some (c.toNat - 48)
  else if ('A') ≤ c ∧ c ≤ ('F') then some (c.toNat - 55)
  else if ('a') ≤ c ∧ c ≤ ('f') then some (c.toNat - 87)
  else none

/-- One token of a percent-encoded path: a character that stands for itself,
or the byte value of one %XX escape. -/
inductive Tok
  | plain (c : Char)
  | byte (b : Nat)

/-- Tokenize a path: each %XX escape becomes its byte, every other character
stays as itself; a '%' not followed by two hex digits is malformed. -/
def toks : List Char → Option (List Tok)
  | [] => some []
  | c :: cs =>
    if c = ('%') then
      match cs with
      | h1 :: h2 :: cs2 =>
        match hexVal h1, hexVal h2 with
        | some x, some y => Option.map (fun l => Tok.byte (16 * x + y) :: l) (toks cs2)
        | _, _ => none
      | _ => none
    else Option.map (fun l => Tok.plain c :: l) (toks cs)

/-- First continuation byte constraint of a three-byte UTF-8 sequence,
excluding overlong encodings (lead 0xE0) and surrogates (lead 0xED). -/
def cont3ok (b b2 : Nat) : Bool :=
  if b = 224 then if 160 ≤ b2 ∧ b2 ≤ 191 then true else false
  else if b = 237 then if 128 ≤ b2 ∧ b2 ≤ 159 then true else false
  else if 128 ≤ b2 ∧ b2 ≤ 191 then true else false

/-- First continuation byte constraint of a four-byte UTF-8 sequence,
excluding overlong encodings (lead 0xF0) and code points beyond U+10FFFF
(lead 0xF4). -/
def cont4ok (b b2 : Nat) : Bool :=
  if b = 240 then if 144 ≤ b2 ∧ b2 ≤ 191 then true else false
  else if b = 244 then if 128 ≤ b2 ∧ b2 ≤ 143 then true else false
  else if 128 ≤ b2 ∧ b2 ≤ 191 then true else false

/-- Reassemble tokens into characters the way decodeURIComponent does:
plain characters pass through, escape bytes must form valid UTF-8 (a
multi-byte sequence is continued only by further escape bytes), and any
violation makes the whole decode fail. -/
def deTok : List Tok → Option (List Char)
  | [] => some []
  | Tok.plain c :: ts => Option.map (fun l => c :: l) (deTok ts)
  | Tok.byte b :: ts =>
    if b < 128 then Option.map (fun l => Char.ofNat b :: l) (deTok ts)
    else if 194 ≤ b ∧ b ≤ 223 then
      match ts with
      | Tok.byte b2 :: ts2 =>
        if 128 ≤ b2 ∧ b2 ≤ 191 then
          Option.map (fun l => Char.ofNat ((b - 192) * 64 + (b2 - 128)) :: l)
            (deTok ts2)
        else none
      | _ => none
    else if 224 ≤ b ∧ b ≤ 239 then
      match ts with
      | Tok.byte b2 :: Tok.byte b3 :: ts3 =>
        if cont3ok b b2 = true ∧ 128 ≤ b3 ∧ b3 ≤ 191 then
          Option.map
            (fun l =>
              Char.ofNat ((b - 224) * 4096 + (b2 - 128) * 64 + (b3 - 128)) :: l)
            (deTok ts3)
        else none
      | _ => none
    else if 240 ≤ b ∧ b ≤ 244 then
      match ts with
      | Tok.byte b2 :: Tok.byte b3 :: Tok.byte b4 :: ts4 =>
        if cont4ok b b2 = true ∧ 128 ≤ b3 ∧ b3 ≤ 191 ∧ 128 ≤ b4 ∧ b4 ≤ 191 then
          Option.map
            (fun l =>
              Char.ofNat ((b - 240) * 262144 + (b2 - 128) * 4096 +
                (b3 - 128) * 64 + (b4 - 128)) :: l)
            (deTok ts4)
        else none
      | _ => none
    else none

/-- decodeURIComponent as send applies it to the path below the mount
point: tokenize the escapes, then validate and reassemble; none models the
URIError that send converts into a 400 response. -/
def percentDecode (l : List Char) : Option (List Char) :=
  match toks l with
  | none => none
  | some ts => deTok ts

/-- The pathname of a request target: everything before the first '?'
(query) or '#' (fragment), as parseurl extracts it for route matching and
for the static middleware. -/
def stripQuery (p : String) : String :=
  String.mk (p.toList.takeWhile (fun c => c != ('?') && c != ('#')))

/-- A filename is plain when it contains none of the characters that the
retrieval path treats specially — '?', '#', '%', NUL — and no '..' path
segment. -/
def plainName (s : String) : Bool :=
  s.toList.all
    (fun c => c != ('?') && c != ('#') && c != ('%') && c != Char.ofNat 0) &&
  !((splitPath s).contains (("..") : String))

/-- The JSON (or byte) responses the server produces, flattened into one
record; absent fields are none. -/
structure Response where
  status : Nat
  success : Option Bool := none
  error : Option String := none
  message : Option String := none
  filename : Option String := none
  url : Option String := none
  size : Option Nat := none
  receivedBody : Option (List (String × String)) := none
  receivedHeaders : Option (List (String × String)) := none
  endpoints : Option (List String) := none
  fileBytes : Option Bytes := none
  note : Option String := none
deriving DecidableEq

/-- A file carried in the multipart field, as multer sees it before
filtering: its declared MIME type and its bytes. -/
structure MultipartFile where
  mimetype : String
  content : Bytes
deriving DecidableEq

/-- multer's fileSize limit: 10 * 1024 * 1024  (server.js line 36). -/
def fileSizeLimit : Nat := 10 * 1024 * 1024

/-- multer's fileFilter test  file.mimetype.startsWith('image/')
(server.js line 39). -/
def mimeIsImage (m : String) : Bool :=
  List.isPrefixOf (("image/").toList) m.toList

/-- The generated filename  screenshot-<timestamp>.png  used both by the
multer diskStorage engine (line 28) and by the base64 handler (line 145). -/
def multerName (ts : Nat) : String :=
  (("screenshot-") : String) ++ toString ts ++ ((".png") : String)

/-- POST /api/screenshot (server.js lines 83-124) together with the multer
pipeline in front of it (lines 33-45) and the error middleware behind it
(lines 172-190), given the file carried in the screenshot field, if any
(field routing itself is modelled by multipartPost below).  multer consults
fileFilter when the file part arrives, before the size limit can trigger;
a filter rejection or a size-limit rejection bypasses the route handler and
reaches the error middleware, which maps LIMIT_FILE_SIZE to 400 and every
other error to 500. -/
def screenshotPost (ts : Nat) (file? : Option MultipartFile)
    (body headers : List (String × String)) (fs : FileSystem) :
    Response × FileSystem :=
  match file? with
  | none =>
    ({ status := 400, success := some false,
       error := some ("No file received"),
       receivedBody := some body, receivedHeaders := some headers }, fs)
  | some f =>
    if mimeIsImage f.mimetype = false then
      ({ status := 500, success := some false,
         error := some ("Internal server error"),
         message := some ("Only image files are allowed") }, fs)
    else if fileSizeLimit < f.content.length then
      ({ status := 400, success := some false,
         error := some ("File too large"),
         message := some ("File size should be less than 10MB") }, fs)
    else
      ({ status := 200, success := some true,
         filename := some (multerName ts),
         message := some ("Screenshot uploaded successfully"),
         url := some ((("/uploads/") : String) ++ multerName ts),
         size := some f.content.length },
       fsWrite fs (pathJoin uploadsDir (multerName ts)) f.content)

/-- The multipart endpoint as a whole: multer's field routing in front of
screenshotPost.  upload.single('screenshot') aborts with
MulterError('LIMIT_UNEXPECTED_FILE') — message  Unexpected field  — when
the file part arrives in any other field, before fileFilter runs; the
error middleware maps that non-LIMIT_FILE_SIZE error to the 500 envelope.
A request with no file part at all reaches the handler with req.file
undefined. -/
def multipartPost (ts : Nat) (part? : Option (String × MultipartFile))
    (body headers : List (String × String)) (fs : FileSystem) :
    Response × FileSystem :=
  match part? with
  | none => screenshotPost ts none body headers fs
  | some (field, f) =>
    if field = ("screenshot") then screenshotPost ts (some f) body headers fs
    else
      ({ status := 500, success := some false,
         error := some ("Internal server error"),
         message := some ("Unexpected field") }, fs)

/-- finalFilename = filename || `screenshot-<timestamp>.png`  (line 145):
JavaScript truthiness makes the empty string fall back to the generated
name. -/
def b64Name (ts : Nat) (fname? : Option String) : String :=
  match fname? with
  | some f => if f = ("") then multerName ts else f
  | none => multerName ts

/-- POST /api/screenshot/base64 (server.js lines 127-169).  The presence
check on image is a truthiness test, the data-URL header is stripped, the
decoded bytes are written to path.join(uploadsDir, finalFilename), and the
reported size is re-read from the filesystem via fs.statSync. -/
def base64Post (ts : Nat) (image? : Option String) (fname? : Option String)
    (fs : FileSystem) : Response × FileSystem :=
  match image? with
  | none =>
    ({ status := 400, success := some false,
       error := some ("No image data received") }, fs)
  | some img =>
    if img = ("") then
      ({ status := 400, success := some false,
         error := some ("No image data received") }, fs)
    else
      let base64Data := stripDataUrl img
      let name := b64Name ts fname?
      let filepath := pathJoin uploadsDir name
      let bytes := base64Decode base64Data
      let fs2 := fsWrite fs filepath bytes
      ({ status := 200, success := some true,
         filename := some name,
         message := some ("Screenshot uploaded successfully"),
         url := some ((("/uploads/") : String) ++ name),
         size := some (Option.getD (Option.map List.length (fsRead fs2 filepath)) 0) },
       fs2)

/-- Response of the static layer when the decoded path contains a '..'
segment: the send library refuses such paths outright. -/
def forbiddenResponse : Response :=
  { status := 403, error := some ("Forbidden") }

/-- Response of the static layer when decoding fails or the decoded path
contains a NUL byte. -/
def badRequestResponse : Response :=
  { status := 400, error := some ("Bad Request") }

/-- Response of the cors middleware to an OPTIONS request: it ends every
preflight itself with status 204 and an empty body. -/
def noContentResponse : Response :=
  { status := 204 }

/-- express.static(uploadsDir) mounted at /uploads (server.js lines 59-64),
following send's pipeline on the pathname below the mount point: it
percent-decodes the path (failure gives 400), refuses NUL bytes (400) and
'..' segments of the decoded path (403), serves the file's bytes when it
exists, and otherwise yields to the next middleware (result none). -/
def staticGet (fs : FileSystem) (rel : String) : Option Response :=
  match percentDecode rel.toList with
  | none => some badRequestResponse
  | some decoded =>
    if decoded.contains (Char.ofNat 0) then some badRequestResponse
    else
      let segs := splitSegsAux decoded []
      if segs.contains (("..") : String) then some forbiddenResponse
      else
        match fsRead fs (resolveSegs uploadsDir segs) with
        | some b => some { status := 200, fileBytes := some b }
        | none => none

/-- The endpoint list of the 404 handler (server.js lines 197-203). -/
def availableEndpoints : List String :=
  [("GET /"), ("GET /api/health"), ("POST /api/screenshot"),
   ("POST /api/screenshot/base64"), ("GET /uploads/:filename")]

/-- The JSON body of the 404 fallback (server.js lines 193-205). -/
def notFoundResponse : Response :=
  { status := 404, success := some false,
    error := some ("Endpoint not found"),
    endpoints := some availableEndpoints }

/-- Response of GET / (server.js lines 67-73), fields beyond the status
string abstracted. -/
def rootResponse : Response :=
  { status := 200, note := some ("Web Audit API Server is running") }

/-- Response of GET /api/health (server.js lines 75-80). -/
def healthResponse : Response :=
  { status := 200, note := some ("healthy") }

/-- An incoming HTTP request, carrying every field any route consults; a
multipart file part comes with the name of the form field that carries it. -/
structure Request where
  method : Method
  path : String
  part? : Option (String × MultipartFile) := none
  body : List (String × String) := []
  headers : List (String × String) := []
  image? : Option String := none
  filename? : Option String := none

/-- A bare GET request for a path. -/
def getRequest (p : String) : Request :=
  { method := Method.GET, path := p }

/-- Mount-point test of the static middleware: the request path lies below
/uploads/. -/
def isUploadsPath (p : String) : Bool :=
  List.isPrefixOf (("/uploads/").toList) p.toList

/-- The request path with the /uploads/ mount point removed. -/
def uploadsRest (p : String) : String :=
  String.mk (p.toList.drop 9)

/-- The whole application, with middlewares and routes tried in their
registration order in server.js: cors (line 48) answers every OPTIONS
request itself with 204; then, matching on the query- and fragment-free
pathname and serving HEAD through GET routes: static /uploads (line 59),
GET / (67), GET /api/health (75), POST /api/screenshot (83),
POST /api/screenshot/base64 (127), and the 404 fallback (193); a miss of
the static route also falls through to the 404 fallback.  The framework's
suppression of the wire body of HEAD responses is below this model's
granularity: the response object is the one the handlers compute. -/
def dispatch (ts : Nat) (req : Request) (fs : FileSystem) :
    Response × FileSystem :=
  if req.method = Method.OPTIONS then (noContentResponse, fs)
  else if effMethod req.method = Method.GET ∧
      isUploadsPath (stripQuery req.path) = true then
    match staticGet fs (uploadsRest (stripQuery req.path)) with
    | some r => (r, fs)
    | none => (notFoundResponse, fs)
  else if effMethod req.method = Method.GET ∧ stripQuery req.path = ("/") then
    (rootResponse, fs)
  else if effMethod req.method = Method.GET ∧
      stripQuery req.path = ("/api/health") then
    (healthResponse, fs)
  else if effMethod req.method = Method.POST ∧
      stripQuery req.path = ("/api/screenshot") then
    multipartPost ts req.part? req.body req.headers fs
  else if effMethod req.method = Method.POST ∧
      stripQuery req.path = ("/api/screenshot/base64") then
    base64Post ts req.image? req.filename? fs
  else (notFoundResponse, fs)

/-- A method/path pair matches one of the five documented routes. -/
def routeMatches (m : Method) (p : String) : Prop :=
  (m = Method.GET ∧ p = ("/")) ∨
  (m = Method.GET ∧ p = ("/api/health")) ∨
  (m = Method.POST ∧ p = ("/api/screenshot")) ∨
  (m = Method.POST ∧ p = ("/api/screenshot/base64")) ∨
  (m = Method.GET ∧ isUploadsPath p = true)

instance (m : Method) (p : String) : Decidable (routeMatches m p) := by
  unfold routeMatches
  exact inferInstance

/-- A small valid image file used to instantiate the upload theorems. -/
def pngFile : MultipartFile :=
  { mimetype := ("image/png"), content := [1, 2, 3] }

/-- A filename containing a NUL character, used against the retrieval
path's null-byte check. -/
def nulName : String :=
  String.mk [('a'), Char.ofNat 0, ('.'), ('p'), ('n'), ('g')]

/-- A non-image file one byte over the 10 MiB limit. -/
def bigText : MultipartFile :=
  { mimetype := ("text/plain"), content := List.replicate 10485761 0 }

/-- An image file one byte over the 10 MiB limit. -/
def bigPng : MultipartFile :=
  { mimetype := ("image/png"), content := List.replicate 10485761 0 }

/-- Reading back the path just written returns exactly the written bytes. -/
theorem fsRead_fsWrite (fs : FileSystem) (p : FsPath) (b : Bytes) :
    fsRead (fsWrite fs p b) p = some b := by
  simp [fsRead, fsWrite]

/-- String concatenation concatenates the character lists. -/
theorem strToList_append (s t : String) :
    (s ++ t).toList = s.toList ++ t.toList := rfl

/-- A list is a Boolean prefix of itself followed by anything. -/
theorem isPrefixOf_self_append (l m : List Char) :
    List.isPrefixOf l (l ++ m) = true := by
  induction l with
  | nil => simp [List.isPrefixOf]
  | cons a as ih => simp [List.isPrefixOf, ih]

/-- Every path of the form /uploads/<rest> lies below the static mount. -/
theorem isUploadsPath_append (s : String) :
    isUploadsPath ((("/uploads/") : String) ++ s) = true := by
  unfold isUploadsPath
  rw [strToList_append]
  exact isPrefixOf_self_append _ _

/-- Removing the mount point from /uploads/<rest> yields <rest>. -/
theorem uploadsRest_append (s : String) :
    uploadsRest ((("/uploads/") : String) ++ s) = s := by
  unfold uploadsRest
  rw [strToList_append]
  rw [show (9 : Nat) = ((("/uploads/") : String).toList).length from rfl]
  rw [List.drop_left]
  rfl

/-- Dropping a literal from the front of that same literal followed by a
tail succeeds and returns the tail. -/
theorem dropLiteral_self_append (l cs : List Char) :
    dropLiteral l (l ++ cs) = some cs := by
  induction l with
  | nil => rfl
  | cons a as ih => simp [dropLiteral, ih]

/-- Stripping the data-URL header from a string that carries exactly one
prepended header returns the rest of the string unchanged. -/
theorem stripDataUrl_header_append (P : String) :
    stripDataUrl ((("data:image/png;base64,") : String) ++ P) = P := rfl

/-- A string with the data-URL header prepended is never empty. -/
theorem header_append_ne_empty (P : String) :
    ((("data:image/png;base64,") : String) ++ P) ≠ (("") : String) := by
  intro h
  have h2 := congrArg (fun s => s.toList.length) h
  simp [strToList_append] at h2

/-- takeWhile keeps a list all of whose elements satisfy the predicate. -/
theorem takeWhile_of_all (p : Char → Bool) (l : List Char)
    (h : ∀ c ∈ l, p c = true) : l.takeWhile p = l := by
  induction l with
  | nil => rfl
  | cons a as ih =>
    have ha : p a = true := h a (by simp)
    simp [List.takeWhile_cons, ha, ih (fun c hc => h c (by simp [hc]))]

/-- stripQuery leaves /uploads/<name> unchanged when the name contains no
query or fragment delimiter. -/
theorem stripQuery_append_plain (s : String)
    (h : ∀ c ∈ s.toList, c ≠ ('?') ∧ c ≠ ('#')) :
    stripQuery ((("/uploads/") : String) ++ s) =
      (("/uploads/") : String) ++ s := by
  unfold stripQuery
  rw [strToList_append]
  rw [takeWhile_of_all]
  · rfl
  · intro c hc
    rcases List.mem_append.mp hc with h1 | h2
    · exact (by decide :
        ∀ c ∈ (("/uploads/") : String).toList,
          (c != ('?') && c != ('#')) = true) c h1
    · have hs := h c h2
      simp [hs.1, hs.2]

/-- Tokenizing a percent-free character list keeps every character plain. -/
theorem toks_plain (l : List Char) (h : ∀ c ∈ l, c ≠ ('%')) :
    toks l = some (l.map Tok.plain) := by
  induction l with
  | nil => rfl
  | cons c cs ih =>
    have hc : c ≠ ('%') := h c (by simp)
    have ih' := ih (fun d hd => h d (by simp [hd]))
    unfold toks
    rw [if_neg hc, ih']
    rfl

/-- Reassembling a list of plain tokens returns the original characters. -/
theorem deTok_plain (l : List Char) :
    deTok (l.map Tok.plain) = some l := by
  induction l with
  | nil => rfl
  | cons c cs ih =>
    have hstep : deTok (Tok.plain c :: List.map Tok.plain cs) =
        Option.map (fun l => c :: l) (deTok (List.map Tok.plain cs)) := rfl
    rw [List.map_cons, hstep, ih]
    rfl

/-- Percent-decoding is the identity on percent-free character lists. -/
theorem percentDecode_plain (l : List Char) (h : ∀ c ∈ l, c ≠ ('%')) :
    percentDecode l = some l := by
  simp [percentDecode, toks_plain l h, deTok_plain]

/-- A plain filename contains none of the retrieval-sensitive characters. -/
theorem plainName_chars (s : String) (h : plainName s = true) :
    ∀ c ∈ s.toList,
      c ≠ ('?') ∧ c ≠ ('#') ∧ c ≠ ('%') ∧ c ≠ Char.ofNat 0 := by
  simp only [plainName, Bool.and_eq_true, List.all_eq_true, bne_iff_ne] at h
  intro c hc
  obtain ⟨⟨⟨hq, hh⟩, hp⟩, hn⟩ := h.1 c hc
  exact ⟨hq, hh, hp, hn⟩

/-- A plain filename splits into segments free of '..'. -/
theorem plainName_noDotDot (s : String) (h : plainName s = true) :
    ¬ ((("..") : String) ∈ splitPath s) := by
  simp [plainName] at h
  exact h.2

/-- C1: for every successful upload (multipart or base64) of a payload of at
most 10 MiB, the size field of the JSON success response equals the exact
byte length of the file written to the storage root. -/
theorem sizeField_eq_storedLength :
    (∀ (ts : Nat) (f : MultipartFile) (body headers : List (String × String))
        (fs : FileSystem),
      mimeIsImage f.mimetype = true →
      f.content.length ≤ fileSizeLimit →
      ((screenshotPost ts (some f) body headers fs).1.success = some true ∧
       fsRead (screenshotPost ts (some f) body headers fs).2
           (pathJoin uploadsDir (multerName ts)) = some f.content ∧
       (screenshotPost ts (some f) body headers fs).1.size =
         some f.content.length)) ∧
    (∀ (ts : Nat) (img : String) (fname? : Option String) (fs : FileSystem),
      img ≠ (("") : String) →
      img.length ≤ fileSizeLimit →
      ((base64Post ts (some img) fname? fs).1.success = some true ∧
       fsRead (base64Post ts (some img) fname? fs).2
           (pathJoin uploadsDir (b64Name ts fname?)) =
         some (base64Decode (stripDataUrl img)) ∧
       (base64Post ts (some img) fname? fs).1.size =
         some (base64Decode (stripDataUrl img)).length)) := by
  constructor
  · intro ts f body headers fs hm hs
    have hnot : ¬ (fileSizeLimit < f.content.length) := Nat.not_lt.mpr hs
    refine ⟨?_, ?_, ?_⟩ <;> simp [screenshotPost, hm, hnot, fsRead_fsWrite]
  · intro ts img fname? fs hne hs
    refine ⟨?_, ?_, ?_⟩ <;> simp [base64Post, hne, fsRead_fsWrite]

/-- Witness for C1 at a 3-byte multipart image and a 4-character base64
payload. -/
theorem sizeField_eq_storedLength_witness :
    (screenshotPost 0 (some pngFile) [] [] []).1.size =
      some pngFile.content.length ∧
    (base64Post 0 (some (("AAAA") : String)) none []).1.size =
      some (base64Decode (stripDataUrl (("AAAA") : String))).length :=
  And.intro
    ((sizeField_eq_storedLength.1 0 pngFile [] [] []
        (by decide) (by decide)).2.2)
    ((sizeField_eq_storedLength.2 0 (("AAAA") : String) none []
        (by decide) (by decide)).2.2)

/-- C3 counterexample: a multipart request whose file part lies in the
field photo carries no file in the screenshot field, yet multer aborts it
with LIMIT_UNEXPECTED_FILE and the middleware answers HTTP 500 with message
Unexpected field and no echo of the received body. -/
theorem wrongField_not_400 :
    (multipartPost 0 (some ((("photo") : String), pngFile))
        [((("k") : String), (("v") : String))] [] []).1.status = 500 ∧
    ¬ (multipartPost 0 (some ((("photo") : String), pngFile))
        [((("k") : String), (("v") : String))] [] []).1.status = 400 ∧
    (multipartPost 0 (some ((("photo") : String), pngFile))
        [((("k") : String), (("v") : String))] [] []).1.message =
      some ("Unexpected field") ∧
    (multipartPost 0 (some ((("photo") : String), pngFile))
        [((("k") : String), (("v") : String))] [] []).1.receivedBody = none := by
  refine ⟨?_, ?_, ?_, ?_⟩ <;> decide

/-- C3 as amended: a multipart request to POST /api/screenshot that carries
no file part in any field gets HTTP 400, success = false, and an echo of
the received body and headers. -/
theorem multipart_noFile_400 (ts : Nat)
    (body headers : List (String × String)) (fs : FileSystem) :
    (multipartPost ts none body headers fs).1.status = 400 ∧
    (multipartPost ts none body headers fs).1.success = some false ∧
    (multipartPost ts none body headers fs).1.receivedBody = some body ∧
    (multipartPost ts none body headers fs).1.receivedHeaders = some headers :=
  ⟨rfl, rfl, rfl, rfl⟩

/-- C5: a multipart upload whose file has a MIME type not prefixed image/
is rejected by the filter step and surfaces as HTTP 500 with the underlying
message  Only image files are allowed. -/
theorem nonImage_mime_500 (ts : Nat) (f : MultipartFile)
    (body headers : List (String × String)) (fs : FileSystem)
    (hm : mimeIsImage f.mimetype = false) :
    (screenshotPost ts (some f) body headers fs).1.status = 500 ∧
    (screenshotPost ts (some f) body headers fs).1.success = some false ∧
    (screenshotPost ts (some f) body headers fs).1.message =
      some ("Only image files are allowed") := by
  refine ⟨?_, ?_, ?_⟩ <;> simp [screenshotPost, hm]

/-- Witness for C5 at a text/plain file. -/
theorem nonImage_mime_500_witness :
    (screenshotPost 0
        (some { mimetype := ("text/plain"), content := [1] }) [] [] []).1.status
      = 500 :=
  (nonImage_mime_500 0 { mimetype := ("text/plain"), content := [1] } [] [] []
    (by decide)).1

/-- C9: the base64 endpoint never fails on decoding; every request whose
image field is a non-empty string is answered with HTTP 200 and
success = true, even when the string is not valid base64. -/
theorem base64_decode_total_200 (ts : Nat) (img : String)
    (fname? : Option String) (fs : FileSystem) (h : img ≠ (("") : String)) :
    (base64Post ts (some img) fname? fs).1.status = 200 ∧
    (base64Post ts (some img) fname? fs).1.success = some true := by
  constructor <;> simp [base64Post, h]

/-- Witness for C9 at a string that is not valid base64. -/
theorem base64_decode_total_200_witness :
    (base64Post 0 (some (("!!not-valid-base64!!") : String)) none []).1.status
        = 200 ∧
    (base64Post 0 (some (("!!not-valid-base64!!") : String)) none []).1.success
        = some true :=
  base64_decode_total_200 0 (("!!not-valid-base64!!") : String) none []
    (by decide)

/-- C10: the presence check on the image field is a truthiness test, so an
empty-string image is rejected with HTTP 400 and error
No image data received, exactly as when the field is absent. -/
theorem empty_image_400 (ts : Nat) (fname? : Option String) (fs : FileSystem) :
    (base64Post ts (some (("") : String)) fname? fs).1.status = 400 ∧
    (base64Post ts (some (("") : String)) fname? fs).1.error =
      some ("No image data received") ∧
    base64Post ts (some (("") : String)) fname? fs =
      base64Post ts none fname? fs :=
  ⟨rfl, rfl, rfl⟩

/-- C4 counterexample: an oversized multipart file whose MIME type is not
image/* is rejected by the fileFilter step, which multer consults before the
size limit can fire, so the response is HTTP 500, not the claimed 400. -/
theorem oversized_not_always_400 :
    fileSizeLimit < bigText.content.length ∧
    (screenshotPost 0 (some bigText) [] [] []).1.status = 500 ∧
    ¬ (screenshotPost 0 (some bigText) [] [] []).1.status = 400 := by
  have hm : mimeIsImage bigText.mimetype = false := by decide
  have hlen : bigText.content.length = 10485761 := by
    show (List.replicate 10485761 (0 : Nat)).length = 10485761
    simp only [List.length_replicate]
  refine ⟨?_, ?_, ?_⟩
  · rw [hlen]
    decide
  · simp [screenshotPost, hm]
  · simp [screenshotPost, hm]

/-- C4 as amended: every multipart upload of an image/* file larger than
10 MiB is answered with HTTP 400, error  File too large, and message
File size should be less than 10MB. -/
theorem oversized_image_400 (ts : Nat) (f : MultipartFile)
    (body headers : List (String × String)) (fs : FileSystem)
    (hm : mimeIsImage f.mimetype = true)
    (hs : fileSizeLimit < f.content.length) :
    (screenshotPost ts (some f) body headers fs).1.status = 400 ∧
    (screenshotPost ts (some f) body headers fs).1.success = some false ∧
    (screenshotPost ts (some f) body headers fs).1.error =
      some ("File too large") ∧
    (screenshotPost ts (some f) body headers fs).1.message =
      some ("File size should be less than 10MB") := by
  refine ⟨?_, ?_, ?_, ?_⟩ <;> simp [screenshotPost, hm, hs]

/-- Witness for the amended C4 at a PNG one byte over the limit. -/
theorem oversized_image_400_witness :
    (screenshotPost 0 (some bigPng) [] [] []).1.status = 400 ∧
    (screenshotPost 0 (some bigPng) [] [] []).1.error =
      some ("File too large") :=
  have hm : mimeIsImage bigPng.mimetype = true := by decide
  have hs : fileSizeLimit < bigPng.content.length := by
    have hlen : bigPng.content.length = 10485761 := by
      show (List.replicate 10485761 (0 : Nat)).length = 10485761
      simp only [List.length_replicate]
    rw [hlen]
    decide
  have h := oversized_image_400 0 bigPng [] [] [] hm hs
  ⟨h.1, h.2.2.1⟩

/-- C6 counterexample: for the payload P = data:image/png;base64,AAAA —
a payload that itself begins with a data-URL header — the upload of
header ++ P stores different bytes than the upload of P alone, because the
single anchored replace removes only the outer header from the former but
strips P's own header from the latter. -/
theorem dataUrl_noop_counterexample :
    fsRead (base64Post 0
        (some (("data:image/png;base64,data:image/png;base64,AAAA") : String))
        (some (("x.png") : String)) []).2
      (pathJoin uploadsDir (("x.png") : String)) ≠
    fsRead (base64Post 0
        (some (("data:image/png;base64,AAAA") : String))
        (some (("x.png") : String)) []).2
      (pathJoin uploadsDir (("x.png") : String)) := by
  decide

/-- C6 as amended: for every non-empty payload P that does not itself begin
with a data-URL header, uploading  data:image/png;base64, ++ P  stores
exactly the same decoded bytes as uploading P alone, from any starting
filesystems. -/
theorem dataUrl_strip_noop (ts : Nat) (P : String) (fname? : Option String)
    (fs fs' : FileSystem)
    (hP : matchDataUrl P.toList = none)
    (hne : P ≠ (("") : String)) :
    fsRead (base64Post ts
        (some ((("data:image/png;base64,") : String) ++ P)) fname? fs).2
      (pathJoin uploadsDir (b64Name ts fname?)) =
    fsRead (base64Post ts (some P) fname? fs').2
      (pathJoin uploadsDir (b64Name ts fname?)) := by
  have h1 := header_append_ne_empty P
  have h2 : stripDataUrl ((("data:image/png;base64,") : String) ++ P) = P :=
    stripDataUrl_header_append P
  have h3 : stripDataUrl P = P := by
    unfold stripDataUrl
    rw [hP]
  simp [base64Post, h1, hne, h2, h3, fsRead_fsWrite]

/-- Witness for the amended C6 at P = AAAA. -/
theorem dataUrl_strip_noop_witness :
    fsRead (base64Post 0
        (some ((("data:image/png;base64,") : String) ++ (("AAAA") : String)))
        none []).2
      (pathJoin uploadsDir (b64Name 0 none)) =
    fsRead (base64Post 0 (some (("AAAA") : String)) none []).2
      (pathJoin uploadsDir (b64Name 0 none)) :=
  dataUrl_strip_noop 0 (("AAAA") : String) none [] []
    (by decide) (by decide)

/-- C8: the base64 endpoint joins the client-supplied filename onto the
storage root without sanitization, so some filename containing a '..'
segment makes the write land outside the storage root. -/
theorem traversal_write_outside_root :
    ∃ fname : String,
      (splitPath fname).contains (("..") : String) = true ∧
      fsRead (base64Post 0 (some (("AAAA") : String)) (some fname) []).2
          (pathJoin uploadsDir fname) =
        some (base64Decode (("AAAA") : String)) ∧
      List.isPrefixOf uploadsDir (pathJoin uploadsDir fname) = false := by
  refine ⟨("../escape.png"), ?_, ?_, ?_⟩ <;> decide

end WebAudit
